import Mathlib

/-!
Verification development for the alpaca-trade daily trading bot
(`bot.py`, class `DailyTradingBot`).

The numeric columns produced by pandas/ta are modelled with `PFloat`,
an explicit IEEE-style value type (`nan`, signed infinities, or an exact
rational).  Decimal literals of the source (`0.2`, `1.5`, `1.05`, ...)
are modelled by the corresponding rationals.  External I/O (brokerage
calls, market data) is passed in as explicit arguments or `Except`
results; `Except.error` stands for a raised exception at the call site.
-/

/-- Model of a Python/pandas floating point cell: not-a-number, the two
infinities, or an exact rational value. -/
inductive PFloat where
  | nan : PFloat
  | inf : PFloat
  | ninf : PFloat
  | val : ℚ → PFloat
deriving DecidableEq, Repr

namespace PFloat

/-- IEEE `<` comparison: any comparison with `nan` is `false`. -/
def lt : PFloat → PFloat → Bool
  | nan, _ => false
  | _, nan => false
  | inf, _ => false
  | ninf, ninf => false
  | ninf, _ => true
  | val _, inf => true
  | val _, ninf => false
  | val a, val b => decide (a < b)

/-- IEEE negation. -/
def neg : PFloat → PFloat
  | nan => nan
  | inf => ninf
  | ninf => inf
  | val a => val (-a)

/-- IEEE addition (`inf + ninf = nan`). -/
def add : PFloat → PFloat → PFloat
  | nan, _ => nan
  | _, nan => nan
  | inf, ninf => nan
  | inf, _ => inf
  | ninf, inf => nan
  | ninf, _ => ninf
  | val _, inf => inf
  | val _, ninf => ninf
  | val a, val b => val (a + b)

/-- IEEE subtraction. -/
def sub (a b : PFloat) : PFloat := add a (neg b)

/-- IEEE/pandas division: `x / 0` is a signed infinity for `x ≠ 0` and
`nan` for `x = 0` (pandas Series division semantics, no exception). -/
def div : PFloat → PFloat → PFloat
  | nan, _ => nan
  | _, nan => nan
  | inf, inf => nan
  | inf, ninf => nan
  | inf, val b => if b < 0 then ninf else inf
  | ninf, inf => nan
  | ninf, ninf => nan
  | ninf, val b => if b < 0 then inf else ninf
  | val _, inf => val 0
  | val _, ninf => val 0
  | val a, val b =>
      if b = 0 then (if a = 0 then nan else if a > 0 then inf else ninf)
      else val (a / b)

end PFloat

/-- `%.2f`-style rendering of a rational (two decimal places, round half
up); used only to build the human-readable reason strings of the bot. -/
def ratFmt2 (q : ℚ) : String :=
  let n : ℤ := ⌊q * 100 + 1/2⌋
  let sgn := if n < 0 then "-" else ""
  let m := n.natAbs
  sgn ++ toString (m / 100) ++ "." ++ (if m % 100 < 10 then "0" else "") ++ toString (m % 100)

/-- Rendering of a `PFloat` in reason strings. -/
def fmt2 : PFloat → String
  | PFloat.nan => "nan"
  | PFloat.inf => "inf"
  | PFloat.ninf => "-inf"
  | PFloat.val q => ratFmt2 q

/-- `hay` contains `needle` as a substring. -/
def containsStr (hay needle : String) : Prop :=
  ∃ s t : String, hay = s ++ needle ++ t

/-- One raw OHLCV bar (`get_historical_data` row); the series order is
the ascending timestamp order of the source DataFrame. -/
structure Bar where
  open_ : ℚ
  high : ℚ
  low : ℚ
  close : ℚ
  volume : ℚ
deriving DecidableEq, Repr

/-- A row of the indicator-augmented DataFrame produced by
`calculate_technical_indicators`: the raw OHLCV fields plus the derived
columns (`rsi`, `macd`, `macd_signal`, `macd_diff`, `sma_20`, `sma_50`,
`ema_12`, `volume_sma_20` as `vol_sma20`, `volume_ratio` as `vol_quot`). -/
structure IndRow where
  open_ : ℚ
  high : ℚ
  low : ℚ
  close : ℚ
  volume : ℚ
  rsi : PFloat
  macd : PFloat
  macd_signal : PFloat
  macd_diff : PFloat
  sma_20 : PFloat
  sma_50 : PFloat
  ema_12 : PFloat
  vol_sma20 : PFloat
  vol_quot : PFloat
deriving DecidableEq, Repr

/-- `Series.rolling(window=w).mean()` at row `i`: the mean of the `w`
entries ending at `i`, `nan` while fewer than `w` entries exist. -/
def rollingMean (w : ℕ) (xs : List ℚ) (i : ℕ) : PFloat :=
  if w ≤ i + 1 ∧ i < xs.length then
    PFloat.val ((((xs.drop (i + 1 - w)).take w).sum) / (w : ℚ))
  else PFloat.nan

/-- `df['volume_sma_20']` at row `i` (source line 184). -/
def volSma20Col (vols : List ℚ) (i : ℕ) : PFloat := rollingMean 20 vols i

/-- `df['volume_ratio']` at row `i`: latest volume divided by its
20-period rolling mean (source line 185). -/
def volRatioCol (vols : List ℚ) (i : ℕ) : PFloat :=
  PFloat.div (PFloat.val (vols.getD i 0)) (volSma20Col vols i)

/-- `adjust=False` exponentially weighted recursion after the seed:
`y_i = (1-a) * y_{i-1} + a * x_i`. -/
def ewmAux (a : ℚ) (y : ℚ) : List ℚ → List ℚ
  | [] => []
  | x :: xs => ((1 - a) * y + a * x) :: ewmAux a ((1 - a) * y + a * x) xs

/-- `Series.ewm(adjust=False).mean()` over a series with no missing
values: the first output equals the first input, then the recursion. -/
def ewmList (a : ℚ) : List ℚ → List ℚ
  | [] => []
  | x :: xs => x :: ewmAux a x xs

/-- `close.ewm(span=w, min_periods=w, adjust=False).mean()` at row `i`
(`ta.trend.EMAIndicator`): smoothing factor `2/(w+1)`, masked to `nan`
until `w` observations exist. -/
def emaCol (w : ℕ) (closes : List ℚ) (i : ℕ) : PFloat :=
  if i + 1 < w then PFloat.nan
  else PFloat.val ((ewmList (2 / (w + 1 : ℚ)) closes).getD i 0)

/-- Unmasked MACD line value at row `i`: EMA(12) minus EMA(26) of close
(`ta.trend.MACD` with fast 12, slow 26). -/
def macdRat (closes : List ℚ) (i : ℕ) : ℚ :=
  (ewmList (2 / 13) closes).getD i 0 - (ewmList (2 / 27) closes).getD i 0

/-- `df['macd']` at row `i`: masked until both EMAs have their
`min_periods` (fast 12, slow 26), i.e. until row 25. -/
def macdCol (closes : List ℚ) (i : ℕ) : PFloat :=
  if i + 1 < 26 then PFloat.nan else PFloat.val (macdRat closes i)

/-- `df['macd_signal']` at row `i`: EWM (span 9, `min_periods` 9,
`adjust=False`) of the MACD line, whose first valid value is at row 25;
defined from row 33 on. -/
def macdSignalCol (closes : List ℚ) (i : ℕ) : PFloat :=
  if i + 1 < 34 then PFloat.nan
  else PFloat.val
    ((ewmList (2 / 10)
      ((List.range (closes.length - 25)).map (fun j => macdRat closes (25 + j)))).getD (i - 25) 0)

/-- First differences of the close series; row 0 is `0` (pandas `diff`
yields `NaN` there, and `where(diff > 0, 0.0)` turns it into `0.0`). -/
def diffList (closes : List ℚ) : List ℚ :=
  (List.range closes.length).map
    (fun i => if i = 0 then 0 else closes.getD i 0 - closes.getD (i - 1) 0)

/-- `df['rsi']` at row `i` (`ta.momentum.RSIIndicator`, window 14):
EWM (alpha `1/14`, `adjust=False`, `min_periods` 14) of gains and
losses, `rsi = 100 - 100 / (1 + gain_ewm / loss_ewm)`, with the
division following pandas semantics (`0/0 = nan`, `x/0 = inf`). -/
def rsiCol (closes : List ℚ) (i : ℕ) : PFloat :=
  if i + 1 < 14 then PFloat.nan
  else
    let ups := (diffList closes).map (fun d => max d 0)
    let downs := (diffList closes).map (fun d => max (-d) 0)
    let ru := (ewmList (1 / 14) ups).getD i 0
    let rd := (ewmList (1 / 14) downs).getD i 0
    PFloat.sub (PFloat.val 100)
      (PFloat.div (PFloat.val 100)
        (PFloat.add (PFloat.val 1) (PFloat.div (PFloat.val ru) (PFloat.val rd))))

/-- `DailyTradingBot.calculate_technical_indicators` (source lines
153-191): `None` for a null series or fewer than 30 bars, otherwise the
series augmented with the indicator columns.  The body never raises on
such input, so the `except` branch of the source is unreachable here. -/
def calculate_technical_indicators (df : Option (List Bar)) : Option (List IndRow) :=
  match df with
  | none => none
  | some bars =>
    if bars.length < 30 then none
    else
      let closes := bars.map (fun b => b.close)
      let vols := bars.map (fun b => b.volume)
      some ((List.range bars.length).map (fun i =>
        { open_ := (bars.map (fun b => b.open_)).getD i 0
          high := (bars.map (fun b => b.high)).getD i 0
          low := (bars.map (fun b => b.low)).getD i 0
          close := closes.getD i 0
          volume := vols.getD i 0
          rsi := rsiCol closes i
          macd := macdCol closes i
          macd_signal := macdSignalCol closes i
          macd_diff := PFloat.sub (macdCol closes i) (macdSignalCol closes i)
          sma_20 := rollingMean 20 closes i
          sma_50 := rollingMean 50 closes i
          ema_12 := emaCol 12 closes i
          vol_sma20 := volSma20Col vols i
          vol_quot := volRatioCol vols i }))

/-- `DailyTradingBot.analyze_volume` (source lines 193-217): `(None,
None)` for a null series or fewer than 2 rows, otherwise classify the
latest row against the previous one. -/
def analyze_volume (df : Option (List IndRow)) : Option String × Option String :=
  match df with
  | none => (none, none)
  | some rows =>
    match rows.reverse with
    | latest :: previous :: _ =>
      if PFloat.lt (PFloat.val (3/2)) latest.vol_quot then
        if previous.close < latest.close then
          (some "BULLISH", some ("High volume breakout (ratio: " ++ fmt2 latest.vol_quot ++ ")"))
        else
          (some "BEARISH", some ("High volume selling (ratio: " ++ fmt2 latest.vol_quot ++ ")"))
      else if PFloat.lt latest.vol_quot (PFloat.val (1/2)) then
        (some "NEUTRAL", some ("Low volume (ratio: " ++ fmt2 latest.vol_quot ++ ")"))
      else
        (some "NEUTRAL", some "Normal volume")
    | _ => (none, none)

/-- Strict local maxima of a window: values greater than both
neighbours (source lines 232-235). -/
def localPeaks (hs : List ℚ) : List ℚ :=
  ((List.range hs.length).filter (fun i =>
    decide (1 ≤ i) && decide (i + 1 < hs.length) &&
    decide (hs.getD (i - 1) 0 < hs.getD i 0) && decide (hs.getD (i + 1) 0 < hs.getD i 0))).map
    (fun i => hs.getD i 0)

/-- Strict local minima of a window (source lines 247-250). -/
def localTroughs (ls : List ℚ) : List ℚ :=
  ((List.range ls.length).filter (fun i =>
    decide (1 ≤ i) && decide (i + 1 < ls.length) &&
    decide (ls.getD i 0 < ls.getD (i - 1) 0) && decide (ls.getD i 0 < ls.getD (i + 1) 0))).map
    (fun i => ls.getD i 0)

/-- Last `n` entries of a list (Python `xs[-n:]`). -/
def lastN (n : ℕ) (xs : List ℚ) : List ℚ := xs.drop (xs.length - n)

/-- Minimum of a list, `0` on empty (only applied to non-empty windows). -/
def listMinD : List ℚ → ℚ
  | [] => 0
  | x :: xs => xs.foldl min x

/-- Maximum of a list, `0` on empty (only applied to non-empty windows). -/
def listMaxD : List ℚ → ℚ
  | [] => 0
  | x :: xs => xs.foldl max x

/-- `DailyTradingBot.detect_price_patterns` (source lines 219-268):
double top / double bottom over the trailing 10 bars, falling back to a
±5%-of-mean trend check.  The peak-distance quotient uses rational
division (`/0 = 0`), whereas numpy would yield `inf`/`nan`; the two
agree on series with positive highs/lows. -/
def detect_price_patterns (df : Option (List IndRow)) : Option String × Option String :=
  match df with
  | none => (none, none)
  | some rows =>
    if rows.length < 10 then (none, none)
    else
      match rows.reverse with
      | [] => (none, none)
      | latest :: _ =>
        let recent := rows.drop (rows.length - 10)
        let highs := recent.map (fun r => r.high)
        let lows := recent.map (fun r => r.low)
        let doubleTop : Bool :=
          decide (5 ≤ highs.length) &&
          (match (localPeaks highs).reverse with
           | p1 :: p2 :: _ =>
             decide (|p1 - p2| / p1 < 1/50) && decide (latest.close < listMinD (lastN 3 highs))
           | _ => false)
        let doubleBottom : Bool :=
          decide (5 ≤ lows.length) &&
          (match (localTroughs lows).reverse with
           | t1 :: t2 :: _ =>
             decide (|t1 - t2| / t1 < 1/50) && decide (listMaxD (lastN 3 lows) < latest.close)
           | _ => false)
        if doubleTop then (some "BEARISH", some "Double top pattern detected")
        else if doubleBottom then (some "BULLISH", some "Double bottom pattern detected")
        else
          let m := (recent.map (fun r => r.close)).sum / ((recent.map (fun r => r.close)).length : ℚ)
          if m * (21/20) < latest.close then (some "BULLISH", some "Strong upward trend")
          else if latest.close < m * (19/20) then (some "BEARISH", some "Strong downward trend")
          else (some "NEUTRAL", some "No clear pattern")

/-- `DailyTradingBot.analyze_sentiment` (source lines 270-299): the
sentiment score is the constant `0.0` stub, so the result is always
`NEUTRAL` with the fixed reason string. -/
def analyze_sentiment (_symbol : String) : Option String × Option String :=
  let sentiment_score : ℚ := 0
  if sentiment_score > 3/10 then
    (some "POSITIVE", some ("Positive news sentiment (score: " ++ ratFmt2 sentiment_score ++ ")"))
  else if sentiment_score < -(3/10) then
    (some "NEGATIVE", some ("Negative news sentiment (score: " ++ ratFmt2 sentiment_score ++ ")"))
  else
    (some "NEUTRAL", some ("Neutral news sentiment (score: " ++ ratFmt2 sentiment_score ++ ")"))

/-- The vote-accumulation section of `DailyTradingBot.generate_signals`
(source lines 441-507): starting from `buy_signals = sell_signals = 0`
and `reasons = []`, run the RSI, MACD, moving-average, volume, pattern
and sentiment checks in source order.  The three analyzer outcomes are
passed in as the signal label and reason string each produced. -/
def tally (latest previous : IndRow)
    (volSig : Option String) (volReason : String)
    (patSig : Option String) (patReason : String)
    (sentSig : Option String) (sentReason : String) : ℕ × ℕ × List String :=
  let t0 : ℕ × ℕ × List String := (0, 0, [])
  let t1 :=
    if latest.rsi = PFloat.nan then t0
    else if PFloat.lt latest.rsi (PFloat.val 30) then
      (t0.1 + 1, t0.2.1, t0.2.2 ++ ["RSI oversold (" ++ fmt2 latest.rsi ++ ")"])
    else if PFloat.lt (PFloat.val 70) latest.rsi then
      (t0.1, t0.2.1 + 1, t0.2.2 ++ ["RSI overbought (" ++ fmt2 latest.rsi ++ ")"])
    else t0
  let t2 :=
    if latest.macd = PFloat.nan ∨ previous.macd = PFloat.nan ∨
        latest.macd_signal = PFloat.nan ∨ previous.macd_signal = PFloat.nan then t1
    else if PFloat.lt previous.macd previous.macd_signal &&
        PFloat.lt latest.macd_signal latest.macd then
      (t1.1 + 1, t1.2.1, t1.2.2 ++ ["MACD bullish crossover"])
    else if PFloat.lt previous.macd_signal previous.macd &&
        PFloat.lt latest.macd latest.macd_signal then
      (t1.1, t1.2.1 + 1, t1.2.2 ++ ["MACD bearish crossover"])
    else t1
  let t4 :=
    if latest.sma_20 = PFloat.nan ∨ latest.sma_50 = PFloat.nan ∨
        previous.sma_20 = PFloat.nan ∨ previous.sma_50 = PFloat.nan then t2
    else
      let t3 :=
        if PFloat.lt previous.sma_20 previous.sma_50 &&
            PFloat.lt latest.sma_50 latest.sma_20 then
          (t2.1 + 1, t2.2.1, t2.2.2 ++ ["Golden cross (SMA 20 > SMA 50)"])
        else if PFloat.lt previous.sma_50 previous.sma_20 &&
            PFloat.lt latest.sma_20 latest.sma_50 then
          (t2.1, t2.2.1 + 1, t2.2.2 ++ ["Death cross (SMA 20 < SMA 50)"])
        else t2
      if PFloat.lt latest.sma_20 (PFloat.val latest.close) &&
          PFloat.lt latest.sma_50 latest.sma_20 then
        (t3.1 + 1, t3.2.1, t3.2.2 ++ ["Price above rising moving averages"])
      else if PFloat.lt (PFloat.val latest.close) latest.sma_20 &&
          PFloat.lt latest.sma_20 latest.sma_50 then
        (t3.1, t3.2.1 + 1, t3.2.2 ++ ["Price below falling moving averages"])
      else t3
  let t5 :=
    if volSig = some "BULLISH" then (t4.1 + 1, t4.2.1, t4.2.2 ++ [volReason])
    else if volSig = some "BEARISH" then (t4.1, t4.2.1 + 1, t4.2.2 ++ [volReason])
    else t4
  let t6 :=
    if patSig = some "BULLISH" then (t5.1 + 1, t5.2.1, t5.2.2 ++ [patReason])
    else if patSig = some "BEARISH" then (t5.1, t5.2.1 + 1, t5.2.2 ++ [patReason])
    else t5
  let t7 :=
    if sentSig = some "POSITIVE" then (t6.1 + 1, t6.2.1, t6.2.2 ++ [sentReason])
    else if sentSig = some "NEGATIVE" then (t6.1, t6.2.1 + 1, t6.2.2 ++ [sentReason])
    else t6
  t7

/-- The decision section of `DailyTradingBot.generate_signals` (source
lines 509-523): `buy_signals >= 3` emits one BUY, otherwise
`sell_signals >= 3` emits one SELL, otherwise no signal. -/
def decide_signals (buy_signals sell_signals : ℕ) (reasons : List String) :
    List (String × String) :=
  if 3 ≤ buy_signals then
    [("BUY", "BUY: " ++ String.intercalate ", " reasons)]
  else if 3 ≤ sell_signals then
    [("SELL", "SELL: " ++ String.intercalate ", " reasons)]
  else []

/-- Vote accumulation followed by the decision rule, for given latest
and previous rows and the three analyzer outcomes. -/
def generate_signals_core (latest previous : IndRow)
    (vol pat sent : Option String × Option String) : List (String × String) :=
  let t := tally latest previous vol.1 (vol.2.getD "") pat.1 (pat.2.getD "") sent.1 (sent.2.getD "")
  decide_signals t.1 t.2.1 t.2.2

/-- `DailyTradingBot.generate_signals` (source lines 404-527), with the
fetched history passed in (`none` models `get_historical_data`
returning `None`): fewer than 30 bars yields no signal, otherwise the
indicator pipeline, the three analyzers and the vote aggregation run on
the augmented series. -/
def generate_signals (symbol : String) (hist : Option (List Bar)) : List (String × String) :=
  match hist with
  | none => []
  | some df =>
    if df.length < 30 then []
    else
      match calculate_technical_indicators (some df) with
      | none => []
      | some idf =>
        match idf.reverse with
        | [] => []
        | latest :: rest =>
          generate_signals_core latest (rest.headD latest)
            (analyze_volume (some idf)) (detect_price_patterns (some idf))
            (analyze_sentiment symbol)

/-- The result dictionary built by `place_buy_order` /
`place_sell_order`: `order_id` is absent exactly for DRY_RUN results. -/
structure OrderResult where
  symbol : String
  action : String
  reason : String
  shares : ℤ
  price : ℚ
  order_id : Option String
  status : String
deriving DecidableEq, Repr

/-- Python `int()` applied to a rational: truncation toward zero. -/
def pytrunc (q : ℚ) : ℤ := if 0 ≤ q then ⌊q⌋ else -⌊-q⌋

/-- `DailyTradingBot.place_buy_order` (source lines 629-677) with the
account, quote and submission I/O passed in: position cap is 20% of
buying power, `shares = max(1, int(cap / price))`, and DRY_RUN returns
the same shape without an order id. -/
def place_buy_order (buying_power current_price : ℚ) (dry_run : Bool)
    (symbol reason : String) (submitted_id : String) : OrderResult :=
  let max_position_size := buying_power * (1/5)
  let shares := max 1 (pytrunc (max_position_size / current_price))
  if dry_run then
    { symbol := symbol, action := "BUY", reason := reason, shares := shares,
      price := current_price, order_id := none, status := "DRY_RUN" }
  else
    { symbol := symbol, action := "BUY", reason := reason, shares := shares,
      price := current_price, order_id := some submitted_id, status := "SUBMITTED" }

/-- `DailyTradingBot.place_sell_order` (source lines 679-732) with the
brokerage I/O passed in as `Except` results (`Except.error` models a
raised exception at that call site): a failed position lookup or a
non-positive held quantity yields `Except.ok none` (the skipped, no
position outcome), before any price fetch or submission happens. -/
def place_sell_order (position_qty : Except Unit ℤ) (price_res : Except Unit ℚ)
    (dry_run : Bool) (symbol reason : String) (submit_res : Except Unit String) :
    Except Unit (Option OrderResult) :=
  match position_qty with
  | Except.error _ => Except.ok none
  | Except.ok shares =>
    if shares ≤ 0 then Except.ok none
    else
      match price_res with
      | Except.error e => Except.error e
      | Except.ok current_price =>
        if dry_run then
          Except.ok (some
            { symbol := symbol, action := "SELL", reason := reason, shares := shares,
              price := current_price, order_id := none, status := "DRY_RUN" })
        else
          match submit_res with
          | Except.error e => Except.error e
          | Except.ok oid =>
            Except.ok (some
              { symbol := symbol, action := "SELL", reason := reason, shares := shares,
                price := current_price, order_id := some oid, status := "SUBMITTED" })

/-- One observable step of `execute_trades`: an appended trade value or
the fixed 1-second `time.sleep(1)` pause. -/
inductive TraceItem where
  | order : Option OrderResult → TraceItem
  | sleep1 : TraceItem
deriving DecidableEq, Repr

/-- `DailyTradingBot.execute_trades` (source lines 605-627) as its
observable trace, with the two order placers passed in (`Except.error`
models a raised exception, which the loop catches and moves on from):
each executed signal appends its trade value and then sleeps one
second; non-BUY/SELL signals are skipped; a placer exception skips both
the append and the sleep. -/
def execute_trades (placeBuy : String → String → Except Unit OrderResult)
    (placeSell : String → String → Except Unit (Option OrderResult))
    (symbol : String) : List (String × String) → List TraceItem
  | [] => []
  | (signal_type, reason) :: rest =>
    if signal_type = "BUY" then
      match placeBuy symbol reason with
      | Except.ok t =>
        TraceItem.order (some t) :: TraceItem.sleep1 ::
          execute_trades placeBuy placeSell symbol rest
      | Except.error _ => execute_trades placeBuy placeSell symbol rest
    else if signal_type = "SELL" then
      match placeSell symbol reason with
      | Except.ok t =>
        TraceItem.order t :: TraceItem.sleep1 ::
          execute_trades placeBuy placeSell symbol rest
      | Except.error _ => execute_trades placeBuy placeSell symbol rest
    else execute_trades placeBuy placeSell symbol rest

/-- The `trades` list returned by `execute_trades`: the appended trade
values of the trace, in order. -/
def tradesOf (trace : List TraceItem) : List (Option OrderResult) :=
  trace.filterMap (fun item => match item with
    | TraceItem.order t => some t
    | TraceItem.sleep1 => none)

/-- 09:30 Eastern as seconds after midnight (`MARKET_OPEN_TIME`). -/
def MARKET_OPEN_SECS : ℚ := 34200

/-- 16:00 Eastern as seconds after midnight (`MARKET_CLOSE_TIME`). -/
def MARKET_CLOSE_SECS : ℚ := 57600

/-- `DailyTradingBot.should_run_today` (source lines 50-81) with the
holiday lookup, the brokerage clock call and the current Eastern time
passed in; time of day is seconds after midnight.  On a clock failure
the fallback is `MARKET_OPEN_TIME <= current_time <= MARKET_CLOSE_TIME`
(both bounds inclusive). -/
def should_run_today (weekday : ℕ) (is_holiday : Bool)
    (clock_res : Except Unit Bool) (now_secs : ℚ) : Bool :=
  if 5 ≤ weekday then false
  else if is_holiday then false
  else
    match clock_res with
    | Except.ok is_open => is_open
    | Except.error _ => decide (MARKET_OPEN_SECS ≤ now_secs ∧ now_secs ≤ MARKET_CLOSE_SECS)

theorem containsStr_of_eq_append (needle r mid suf : String) :
    containsStr ((needle ++ r) ++ mid ++ suf) needle :=
  ⟨"", r ++ (mid ++ suf), by simp [String.append_assoc]⟩

/-- C2: for every vote tally (any pair of naturals) the decision step
never emits both a BUY and a SELL signal, and when both thresholds are
met simultaneously the emitted signal is BUY. -/
theorem decide_signals_mutual_exclusion :
    ∀ (b s : ℕ) (rs : List String),
      (¬ ((∃ r, ("BUY", r) ∈ decide_signals b s rs) ∧
          (∃ r, ("SELL", r) ∈ decide_signals b s rs))) ∧
      (3 ≤ b → 3 ≤ s →
        decide_signals b s rs = [("BUY", "BUY: " ++ String.intercalate ", " rs)]) := by
  intro b s rs
  constructor
  · rintro ⟨⟨r1, h1⟩, ⟨r2, h2⟩⟩
    by_cases hb : 3 ≤ b
    · simp [decide_signals, hb] at h2
    · by_cases hs : 3 ≤ s
      · simp [decide_signals, hb, hs] at h1
      · simp [decide_signals, hb, hs] at h1
  · intro hb _
    simp [decide_signals, hb]

theorem decide_signals_mutual_exclusion_witness :
    3 ≤ 3 ∧ decide_signals 3 3 ["x"] = [("BUY", "BUY: " ++ String.intercalate ", " ["x"])] :=
  ⟨by decide, (decide_signals_mutual_exclusion 3 3 ["x"]).2 (by decide) (by decide)⟩

/-- C3: a null history or one with fewer than 30 bars makes the
indicator pipeline return `none` (no exception), and signal generation
returns the empty signal list (HOLD). -/
theorem insufficient_bars_hold :
    (calculate_technical_indicators none = none) ∧
    (∀ bars : List Bar, bars.length < 30 → calculate_technical_indicators (some bars) = none) ∧
    (∀ (symbol : String) (hist : Option (List Bar)),
      hist = none ∨ (∃ bars, hist = some bars ∧ bars.length < 30) →
      generate_signals symbol hist = []) := by
  refine ⟨rfl, ?_, ?_⟩
  · intro bars h
    simp [calculate_technical_indicators, h]
  · rintro symbol hist (rfl | ⟨bars, rfl, h⟩)
    · rfl
    · simp [generate_signals, h]

theorem insufficient_bars_hold_witness :
    ([] : List Bar).length < 30 ∧ calculate_technical_indicators (some []) = none ∧
      generate_signals "AAPL" (some []) = [] :=
  ⟨by decide, insufficient_bars_hold.2.1 [] (by decide),
   insufficient_bars_hold.2.2 "AAPL" (some []) (Or.inr ⟨[], rfl, by decide⟩)⟩

/-- C4: buy sizing is `max(1, floor(0.2 * buying_power / price))` for
positive buying power and price, hence always an integer at least 1; in
particular buying_power 1000 and price 250 give exactly 1 share. -/
theorem place_buy_order_sizing :
    (∀ (bp price : ℚ) (dry : Bool) (sym r oid : String),
      0 < bp → 0 < price →
      (place_buy_order bp price dry sym r oid).shares = max 1 ⌊bp * (1/5) / price⌋ ∧
      1 ≤ (place_buy_order bp price dry sym r oid).shares) ∧
    (∀ (dry : Bool) (sym r oid : String),
      (place_buy_order 1000 250 dry sym r oid).shares = 1) := by
  constructor
  · intro bp price dry sym r oid hbp hp
    have hq : (0:ℚ) ≤ bp * (5:ℚ)⁻¹ / price := by positivity
    have hsh : (place_buy_order bp price dry sym r oid).shares = max 1 ⌊bp * (1/5) / price⌋ := by
      cases dry <;> simp [place_buy_order, pytrunc, hq]
    exact ⟨hsh, hsh ▸ le_max_left 1 _⟩
  · intro dry sym r oid
    have h0 : (0:ℚ) ≤ 1000 * (5:ℚ)⁻¹ / 250 := by norm_num
    cases dry <;> simp [place_buy_order, pytrunc, h0] <;> norm_num

theorem place_buy_order_sizing_witness :
    (0:ℚ) < 1000 ∧ (0:ℚ) < 250 ∧
      ((place_buy_order 1000 250 true "AAPL" "r" "oid").shares =
        max 1 ⌊(1000:ℚ) * (1/5) / 250⌋ ∧
       1 ≤ (place_buy_order 1000 250 true "AAPL" "r" "oid").shares) :=
  ⟨by norm_num, by norm_num,
   place_buy_order_sizing.1 1000 250 true "AAPL" "r" "oid" (by norm_num) (by norm_num)⟩

/-- C7: a failed open-position lookup or a non-positive held quantity
makes `place_sell_order` return the skipped, no-position outcome
(`Except.ok none`) — no exception propagates to the caller. -/
theorem place_sell_order_skipped_no_position :
    ∀ (price_res : Except Unit ℚ) (dry : Bool) (sym r : String)
      (submit_res : Except Unit String) (qty : ℤ),
      place_sell_order (Except.error ()) price_res dry sym r submit_res = Except.ok none ∧
      (qty ≤ 0 →
        place_sell_order (Except.ok qty) price_res dry sym r submit_res = Except.ok none) := by
  intro price_res dry sym r submit_res qty
  exact ⟨rfl, fun h => by simp [place_sell_order, h]⟩

theorem place_sell_order_skipped_no_position_witness :
    (0:ℤ) ≤ 0 ∧
      place_sell_order (Except.error ()) (Except.ok 100) true "AAPL" "r" (Except.ok "id") =
        Except.ok none ∧
      place_sell_order (Except.ok 0) (Except.ok 100) true "AAPL" "r" (Except.ok "id") =
        Except.ok none :=
  ⟨le_refl 0,
   (place_sell_order_skipped_no_position (Except.ok 100) true "AAPL" "r" (Except.ok "id") 0).1,
   (place_sell_order_skipped_no_position (Except.ok 100) true "AAPL" "r" (Except.ok "id") 0).2
     (le_refl 0)⟩

/-- C9 counterexample: on a clock failure the fallback window is
inclusive at the close time — at exactly 16:00 Eastern the bot reports
the market as open, although the claim's half-open interval
`[09:30, 16:00)` excludes 16:00. -/
theorem should_run_today_close_time_counterexample :
    should_run_today 2 false (Except.error ()) MARKET_CLOSE_SECS = true ∧
    ¬ (MARKET_CLOSE_SECS < MARKET_CLOSE_SECS) := by
  refine ⟨?_, lt_irrefl _⟩
  simp [should_run_today, MARKET_OPEN_SECS, MARKET_CLOSE_SECS]
  norm_num

/-- C9 amended: when the clock call fails (and the weekday/holiday
guards pass), the fallback returns true exactly when the Eastern time
of day lies in the closed interval `[09:30, 16:00]` — both bounds
inclusive, so 16:00 itself still counts as open. -/
theorem should_run_today_fallback_window :
    ∀ (weekday : ℕ) (t : ℚ), weekday < 5 →
      (should_run_today weekday false (Except.error ()) t = true ↔
        MARKET_OPEN_SECS ≤ t ∧ t ≤ MARKET_CLOSE_SECS) := by
  intro wd t hwd
  have h5 : ¬ 5 ≤ wd := by omega
  simp [should_run_today, h5]

theorem should_run_today_fallback_window_witness :
    2 < 5 ∧
      (should_run_today 2 false (Except.error ()) 40000 = true ↔
        MARKET_OPEN_SECS ≤ (40000:ℚ) ∧ (40000:ℚ) ≤ MARKET_CLOSE_SECS) :=
  ⟨by decide, should_run_today_fallback_window 2 40000 (by decide)⟩

/-- The vote tally of `generate_signals` as a function of the latest and
previous rows and the three analyzer result pairs, exactly as
`generate_signals_core` consumes them. -/
def tallyOf (latest previous : IndRow) (vol pat sent : Option String × Option String) :
    ℕ × ℕ × List String :=
  tally latest previous vol.1 (vol.2.getD "") pat.1 (pat.2.getD "") sent.1 (sent.2.getD "")

/-- A row whose derived indicator columns are all undefined; with such
rows only the analyzer opinions can contribute votes. -/
def rowNaN : IndRow :=
  { open_ := 0, high := 0, low := 0, close := 0, volume := 0,
    rsi := PFloat.nan, macd := PFloat.nan, macd_signal := PFloat.nan, macd_diff := PFloat.nan,
    sma_20 := PFloat.nan, sma_50 := PFloat.nan, ema_12 := PFloat.nan,
    vol_sma20 := PFloat.nan, vol_quot := PFloat.nan }

/-- C1: whatever votes the checks accumulate, `buy_votes >= 3` emits
exactly one BUY whose reason is `"BUY: "` plus the comma-joined reasons;
otherwise `sell_votes >= 3` emits exactly one SELL likewise; otherwise
no signal is emitted.  The threshold is inclusive at 3: a concrete
input reaching `buy_votes = 2` yields HOLD and one reaching
`buy_votes = 3` yields BUY. -/
theorem generate_signals_decision_rule :
    (∀ (latest previous : IndRow) (vol pat sent : Option String × Option String),
      (3 ≤ (tallyOf latest previous vol pat sent).1 →
        generate_signals_core latest previous vol pat sent =
          [("BUY", "BUY: " ++ String.intercalate ", " (tallyOf latest previous vol pat sent).2.2)]) ∧
      ((tallyOf latest previous vol pat sent).1 < 3 →
        3 ≤ (tallyOf latest previous vol pat sent).2.1 →
        generate_signals_core latest previous vol pat sent =
          [("SELL", "SELL: " ++ String.intercalate ", " (tallyOf latest previous vol pat sent).2.2)]) ∧
      ((tallyOf latest previous vol pat sent).1 < 3 →
        (tallyOf latest previous vol pat sent).2.1 < 3 →
        generate_signals_core latest previous vol pat sent = [])) ∧
    ((tallyOf rowNaN rowNaN (some "BULLISH", some "v") (some "BULLISH", some "p")
        (some "NEUTRAL", some "s")).1 = 2 ∧
      generate_signals_core rowNaN rowNaN (some "BULLISH", some "v") (some "BULLISH", some "p")
        (some "NEUTRAL", some "s") = []) ∧
    ((tallyOf rowNaN rowNaN (some "BULLISH", some "v") (some "BULLISH", some "p")
        (some "POSITIVE", some "s")).1 = 3 ∧
      generate_signals_core rowNaN rowNaN (some "BULLISH", some "v") (some "BULLISH", some "p")
        (some "POSITIVE", some "s") = [("BUY", "BUY: v, p, s")]) := by
  refine ⟨?_, ⟨by decide, by decide⟩, ⟨by decide, by decide⟩⟩
  intro latest previous vol pat sent
  have hcore : generate_signals_core latest previous vol pat sent =
      decide_signals (tallyOf latest previous vol pat sent).1
        (tallyOf latest previous vol pat sent).2.1
        (tallyOf latest previous vol pat sent).2.2 := rfl
  refine ⟨?_, ?_, ?_⟩
  · intro h
    rw [hcore]
    simp [decide_signals, h]
  · intro h1 h2
    have h1' : ¬ 3 ≤ (tallyOf latest previous vol pat sent).1 := by omega
    rw [hcore]
    simp [decide_signals, h1', h2]
  · intro h1 h2
    have h1' : ¬ 3 ≤ (tallyOf latest previous vol pat sent).1 := by omega
    have h2' : ¬ 3 ≤ (tallyOf latest previous vol pat sent).2.1 := by omega
    rw [hcore]
    simp [decide_signals, h1', h2']

theorem generate_signals_decision_rule_witness :
    3 ≤ (tallyOf rowNaN rowNaN (some "BULLISH", some "v") (some "BULLISH", some "p")
        (some "POSITIVE", some "s")).1 ∧
      generate_signals_core rowNaN rowNaN (some "BULLISH", some "v") (some "BULLISH", some "p")
        (some "POSITIVE", some "s") =
        [("BUY", "BUY: " ++ String.intercalate ", "
          (tallyOf rowNaN rowNaN (some "BULLISH", some "v") (some "BULLISH", some "p")
            (some "POSITIVE", some "s")).2.2)] :=
  ⟨by decide,
   (generate_signals_decision_rule.1 rowNaN rowNaN (some "BULLISH", some "v")
     (some "BULLISH", some "p") (some "POSITIVE", some "s")).1 (by decide)⟩

/-- A concrete DRY_RUN buy result used to exhibit the pause behaviour. -/
def dryBuyResult : OrderResult :=
  { symbol := "AAPL", action := "BUY", reason := "r", shares := 1, price := 100,
    order_id := none, status := "DRY_RUN" }

/-- A buy placer that always yields the DRY_RUN result above. -/
def dryPlaceBuy : String → String → Except Unit OrderResult :=
  fun _ _ => Except.ok dryBuyResult

/-- A sell placer that always reports no position. -/
def noopPlaceSell : String → String → Except Unit (Option OrderResult) :=
  fun _ _ => Except.ok none

/-- C5 counterexample: executing two BUY signals whose results are both
DRY_RUN produces a trace with the 1-second pause between (and after)
the two DRY_RUN results — the pause is not skipped for DRY_RUN, contrary
to the claim. -/
theorem execute_trades_dry_run_pause_counterexample :
    execute_trades dryPlaceBuy noopPlaceSell "AAPL" [("BUY", "r"), ("BUY", "r")] =
      [TraceItem.order (some dryBuyResult), TraceItem.sleep1,
       TraceItem.order (some dryBuyResult), TraceItem.sleep1] ∧
    dryBuyResult.status = "DRY_RUN" :=
  ⟨rfl, rfl⟩

theorem execute_trades_cons_shape
    (pb : String → String → Except Unit OrderResult)
    (ps : String → String → Except Unit (Option OrderResult))
    (sym : String) (sg : String × String) (rest : List (String × String)) :
    execute_trades pb ps sym (sg :: rest) = execute_trades pb ps sym rest ∨
    ∃ t, execute_trades pb ps sym (sg :: rest) =
      TraceItem.order t :: TraceItem.sleep1 :: execute_trades pb ps sym rest := by
  obtain ⟨styp, reason⟩ := sg
  by_cases hb : styp = "BUY"
  · subst hb
    cases hpb : pb sym reason with
    | ok tr => exact Or.inr ⟨some tr, by simp [execute_trades, hpb]⟩
    | error e => exact Or.inl (by simp [execute_trades, hpb])
  · by_cases hs : styp = "SELL"
    · subst hs
      cases hps : ps sym reason with
      | ok tr => exact Or.inr ⟨tr, by simp [execute_trades, hps]⟩
      | error e => exact Or.inl (by simp [execute_trades, hps])
    · exact Or.inl (by simp [execute_trades, hb, hs])

/-- C5 amended: the fixed 1-second pause is enforced after every
executed order submission — live or DRY_RUN alike: in the trace of
`execute_trades`, every appended order is immediately followed by the
pause. -/
theorem execute_trades_sleep_after_each_order :
    ∀ (placeBuy : String → String → Except Unit OrderResult)
      (placeSell : String → String → Except Unit (Option OrderResult))
      (symbol : String) (signals : List (String × String)) (i : ℕ) (t : Option OrderResult),
      (execute_trades placeBuy placeSell symbol signals)[i]? = some (TraceItem.order t) →
      (execute_trades placeBuy placeSell symbol signals)[i+1]? = some TraceItem.sleep1 := by
  intro pb ps sym signals
  induction signals with
  | nil => intro i t h; simp [execute_trades] at h
  | cons sg rest ih =>
    intro i t h
    rcases execute_trades_cons_shape pb ps sym sg rest with heq | ⟨t0, heq⟩
    · rw [heq] at h ⊢
      exact ih i t h
    · rw [heq] at h ⊢
      match i with
      | 0 => simp
      | 1 => simp at h
      | (n+2) =>
        simp only [List.getElem?_cons_succ] at h ⊢
        exact ih n t h

theorem execute_trades_sleep_after_each_order_witness :
    (execute_trades dryPlaceBuy noopPlaceSell "AAPL" [("BUY", "r"), ("BUY", "r")])[0]? =
      some (TraceItem.order (some dryBuyResult)) ∧
    (execute_trades dryPlaceBuy noopPlaceSell "AAPL" [("BUY", "r"), ("BUY", "r")])[1]? =
      some TraceItem.sleep1 :=
  ⟨rfl,
   execute_trades_sleep_after_each_order dryPlaceBuy noopPlaceSell "AAPL"
     [("BUY", "r"), ("BUY", "r")] 0 (some dryBuyResult) rfl⟩

/-- `True` when the signal's placement attempt returns without raising. -/
def isOkE {α : Type} (e : Except Unit α) : Bool :=
  match e with
  | Except.ok _ => true
  | Except.error _ => false

/-- A signal that `execute_trades` executes successfully (appends one
trade value for): a BUY or SELL whose placer returns without raising. -/
def executedSignal (pb : String → String → Except Unit OrderResult)
    (ps : String → String → Except Unit (Option OrderResult)) (symbol : String)
    (sg : String × String) : Bool :=
  (decide (sg.1 = "BUY") && isOkE (pb symbol sg.2)) ||
  (decide (sg.1 = "SELL") && isOkE (ps symbol sg.2))

/-- C10: the trade list appends the placer's return value even when a
SELL returns the null no-position result, so the returned list can
contain a null entry, and its length equals the number of executed
signals (one entry per signal that did not raise), not the number of
actual orders. -/
theorem execute_trades_appends_skip_results :
    ∀ (pb : String → String → Except Unit OrderResult)
      (ps : String → String → Except Unit (Option OrderResult))
      (symbol : String) (signals : List (String × String)),
      (tradesOf (execute_trades pb ps symbol signals)).length =
        (signals.filter (executedSignal pb ps symbol)).length ∧
      (∀ (reason : String) (rest : List (String × String)),
        ps symbol reason = Except.ok none →
        none ∈ tradesOf (execute_trades pb ps symbol (("SELL", reason) :: rest))) := by
  intro pb ps symbol signals
  constructor
  · induction signals with
    | nil => rfl
    | cons sg rest ih =>
      obtain ⟨styp, reason⟩ := sg
      by_cases hb : styp = "BUY"
      · subst hb
        cases hpb : pb symbol reason with
        | ok tr =>
          simp [execute_trades, hpb, tradesOf, List.filter_cons, executedSignal, isOkE] at ih ⊢
          omega
        | error e =>
          simp [execute_trades, hpb, tradesOf, List.filter_cons, executedSignal, isOkE] at ih ⊢
          omega
      · by_cases hs : styp = "SELL"
        · subst hs
          cases hps : ps symbol reason with
          | ok tr =>
            simp [execute_trades, hps, tradesOf, List.filter_cons, executedSignal, isOkE, hb] at ih ⊢
            omega
          | error e =>
            simp [execute_trades, hps, tradesOf, List.filter_cons, executedSignal, isOkE, hb] at ih ⊢
            omega
        · simp [execute_trades, hb, hs, List.filter_cons, executedSignal, isOkE] at ih ⊢
          omega
  · intro reason rest hps
    simp [execute_trades, hps, tradesOf]

/-- A buy placer returning a fixed DRY_RUN dictionary. -/
def okBuyPlace : String → String → Except Unit OrderResult :=
  fun s r => Except.ok { symbol := s, action := "BUY", reason := r, shares := 1, price := 1,
                         order_id := none, status := "DRY_RUN" }

/-- A sell placer whose lookup always finds no position. -/
def sellNonePlace : String → String → Except Unit (Option OrderResult) :=
  fun _ _ => Except.ok none

theorem execute_trades_appends_skip_results_witness :
    sellNonePlace "AAPL" "r" = Except.ok none ∧
    none ∈ tradesOf (execute_trades okBuyPlace sellNonePlace "AAPL" [("SELL", "r")]) :=
  ⟨rfl,
   (execute_trades_appends_skip_results okBuyPlace sellNonePlace "AAPL" [("SELL", "r")]).2
     "r" [] rfl⟩

/-- C8: classification of `analyze_volume` for a series of at least two
rows with a defined volume ratio, plus the `(None, None)` soft contract
for null or too-short input. -/
theorem analyze_volume_classification :
    (∀ (rows : List IndRow) (latest previous : IndRow) (rest : List IndRow) (r : ℚ),
      rows.reverse = latest :: previous :: rest →
      latest.vol_quot = PFloat.val r →
      ((3/2 < r → previous.close < latest.close →
        analyze_volume (some rows) =
          (some "BULLISH", some ("High volume breakout (ratio: " ++ fmt2 latest.vol_quot ++ ")")) ∧
        containsStr ("High volume breakout (ratio: " ++ fmt2 latest.vol_quot ++ ")")
          "High volume breakout") ∧
      (3/2 < r → latest.close < previous.close →
        analyze_volume (some rows) =
          (some "BEARISH", some ("High volume selling (ratio: " ++ fmt2 latest.vol_quot ++ ")")) ∧
        containsStr ("High volume selling (ratio: " ++ fmt2 latest.vol_quot ++ ")")
          "High volume selling") ∧
      (r < 1/2 →
        analyze_volume (some rows) =
          (some "NEUTRAL", some ("Low volume (ratio: " ++ fmt2 latest.vol_quot ++ ")")) ∧
        containsStr ("Low volume (ratio: " ++ fmt2 latest.vol_quot ++ ")") "Low volume") ∧
      (1/2 ≤ r → r ≤ 3/2 →
        analyze_volume (some rows) = (some "NEUTRAL", some "Normal volume")))) ∧
    (∀ df : Option (List IndRow),
      df = none ∨ (∃ rows, df = some rows ∧ rows.length < 2) →
      analyze_volume df = (none, none)) := by
  constructor
  · intro rows latest previous rest r hrev hvq
    have hbody : analyze_volume (some rows) =
        (if PFloat.lt (PFloat.val (3/2)) latest.vol_quot then
          if previous.close < latest.close then
            (some "BULLISH", some ("High volume breakout (ratio: " ++ fmt2 latest.vol_quot ++ ")"))
          else
            (some "BEARISH", some ("High volume selling (ratio: " ++ fmt2 latest.vol_quot ++ ")"))
        else if PFloat.lt latest.vol_quot (PFloat.val (1/2)) then
          (some "NEUTRAL", some ("Low volume (ratio: " ++ fmt2 latest.vol_quot ++ ")"))
        else (some "NEUTRAL", some "Normal volume")) := by
      simp only [analyze_volume, hrev]
    refine ⟨?_, ?_, ?_, ?_⟩
    · intro h1 h2
      refine ⟨?_, containsStr_of_eq_append "High volume breakout" " (ratio: "
        (fmt2 latest.vol_quot) ")"⟩
      rw [hbody, hvq,
        if_pos (show PFloat.lt (PFloat.val (3/2)) (PFloat.val r) = true by
          simp [PFloat.lt, h1]),
        if_pos h2]
    · intro h1 h2
      refine ⟨?_, containsStr_of_eq_append "High volume selling" " (ratio: "
        (fmt2 latest.vol_quot) ")"⟩
      rw [hbody, hvq,
        if_pos (show PFloat.lt (PFloat.val (3/2)) (PFloat.val r) = true by
          simp [PFloat.lt, h1]),
        if_neg (lt_asymm h2)]
    · intro h1
      refine ⟨?_, containsStr_of_eq_append "Low volume" " (ratio: "
        (fmt2 latest.vol_quot) ")"⟩
      have hn : ¬ (3/2 : ℚ) < r := by linarith
      rw [hbody, hvq,
        if_neg (show ¬ PFloat.lt (PFloat.val (3/2)) (PFloat.val r) = true by
          simp [PFloat.lt, hn]),
        if_pos (show PFloat.lt (PFloat.val r) (PFloat.val (1/2)) = true by
          simp only [PFloat.lt, decide_eq_true_eq]
          linarith)]
    · intro h1 h2
      have hn1 : ¬ (3/2 : ℚ) < r := not_lt.mpr h2
      have hn2 : ¬ r < (1/2 : ℚ) := not_lt.mpr h1
      rw [hbody, hvq,
        if_neg (show ¬ PFloat.lt (PFloat.val (3/2)) (PFloat.val r) = true by
          simp [PFloat.lt, hn1]),
        if_neg (show ¬ PFloat.lt (PFloat.val r) (PFloat.val (1/2)) = true by
          simp only [PFloat.lt, decide_eq_true_eq]
          linarith)]
  · rintro df (rfl | ⟨rows, rfl, hlen⟩)
    · rfl
    · rcases rows with _ | ⟨a, _ | ⟨b, t⟩⟩
      · rfl
      · rfl
      · simp at hlen
        omega

/-- The latest row of C8's witness: volume ratio defined and equal to 1. -/
def rowVol1 : IndRow :=
  { open_ := 0, high := 0, low := 0, close := 0, volume := 0,
    rsi := PFloat.nan, macd := PFloat.nan, macd_signal := PFloat.nan, macd_diff := PFloat.nan,
    sma_20 := PFloat.nan, sma_50 := PFloat.nan, ema_12 := PFloat.nan,
    vol_sma20 := PFloat.nan, vol_quot := PFloat.val 1 }

theorem analyze_volume_classification_witness :
    [rowVol1, rowVol1].reverse = rowVol1 :: rowVol1 :: [] ∧
    rowVol1.vol_quot = PFloat.val 1 ∧ (1/2 : ℚ) ≤ 1 ∧ (1 : ℚ) ≤ 3/2 ∧
    analyze_volume (some [rowVol1, rowVol1]) = (some "NEUTRAL", some "Normal volume") :=
  ⟨rfl, rfl, by norm_num, by norm_num,
   (analyze_volume_classification.1 [rowVol1, rowVol1] rowVol1 rowVol1 [] 1 rfl rfl).2.2.2
     (by norm_num) (by norm_num)⟩

theorem sum_eq_zero_of_nonneg (l : List ℚ) (h0 : ∀ x ∈ l, 0 ≤ x) (hs : l.sum = 0) :
    ∀ x ∈ l, x = 0 := by
  induction l with
  | nil => simp
  | cons a t ih =>
    intro x hx
    have ha : 0 ≤ a := h0 a (by simp)
    have ht : ∀ y ∈ t, 0 ≤ y := fun y hy => h0 y (by simp [hy])
    have hts : 0 ≤ t.sum := List.sum_nonneg ht
    have hsum : a + t.sum = 0 := by simpa using hs
    have ha0 : a = 0 := by linarith
    have hts0 : t.sum = 0 := by linarith
    rcases List.mem_cons.mp hx with rfl | hx'
    · exact ha0
    · exact ih ht hts0 x hx'

/-- C6: the volume-ratio column is guarded against a zero or undefined
rolling average: for a series of non-negative volumes, whenever the
20-period volume average at row `i` is `nan` or exactly zero, the ratio
at row `i` is `nan` — never a finite or infinite ordinary number.
(A zero average over non-negative volumes forces the latest volume to
be zero, and pandas evaluates `0/0` to `NaN`.) -/
theorem volume_ratio_guarded :
    ∀ (vols : List ℚ) (i : ℕ),
      (∀ v ∈ vols, 0 ≤ v) → i < vols.length →
      (volSma20Col vols i = PFloat.nan ∨ volSma20Col vols i = PFloat.val 0) →
      volRatioCol vols i = PFloat.nan := by
  intro vols i hnn hi hcase
  rcases hcase with hnan | hzero
  · simp [volRatioCol, hnan, PFloat.div]
  · by_cases hcond : 20 ≤ i + 1 ∧ i < vols.length
    case neg =>
      unfold volSma20Col rollingMean at hzero
      rw [if_neg hcond] at hzero
      exact absurd hzero (by simp)
    case pos =>
      have hzero' := hzero
      unfold volSma20Col rollingMean at hzero'
      rw [if_pos hcond] at hzero'
      have hsumdiv : (((vols.drop (i + 1 - 20)).take 20).sum) / ((20:ℕ):ℚ) = 0 := by
        injection hzero' with h
      have hsum : ((vols.drop (i + 1 - 20)).take 20).sum = 0 := by
        have h20 : ((20:ℕ):ℚ) ≠ 0 := by norm_num
        exact (div_eq_zero_iff.mp hsumdiv).resolve_right h20
      have hwin_nn : ∀ x ∈ (vols.drop (i + 1 - 20)).take 20, 0 ≤ x := by
        intro x hx
        exact hnn x (List.drop_subset _ _ (List.take_subset _ _ hx))
      have hall0 := sum_eq_zero_of_nonneg _ hwin_nn hsum
      have h19len : 19 < ((vols.drop (i + 1 - 20)).take 20).length := by
        simp only [List.length_take, List.length_drop]
        omega
      have hw19 : ((vols.drop (i + 1 - 20)).take 20)[19]? = some (vols.getD i 0) := by
        rw [List.getElem?_take, if_pos (by omega : (19:ℕ) < 20), List.getElem?_drop]
        have hidx : i + 1 - 20 + 19 = i := by omega
        rw [hidx, List.getElem?_eq_getElem hi, List.getD_eq_getElem vols 0 hi]
      have hmem : vols.getD i 0 ∈ (vols.drop (i + 1 - 20)).take 20 := by
        have hsome := (List.getElem?_eq_getElem h19len).symm.trans hw19
        have heq : ((vols.drop (i + 1 - 20)).take 20)[19] = vols.getD i 0 :=
          Option.some_inj.mp hsome
        exact heq ▸ List.getElem_mem h19len
      have hv0 : vols.getD i 0 = 0 := hall0 _ hmem
      unfold volRatioCol
      rw [hzero, hv0]
      simp [PFloat.div]

theorem volume_ratio_guarded_witness :
    (∀ v ∈ ([5] : List ℚ), 0 ≤ v) ∧ 0 < ([5] : List ℚ).length ∧
      volSma20Col [5] 0 = PFloat.nan ∧ volRatioCol [5] 0 = PFloat.nan :=
  ⟨by norm_num, by decide, rfl,
   volume_ratio_guarded [5] 0 (by norm_num) (by decide) (Or.inl rfl)⟩
